import Mathlib

/-!
Verification of the `pix2reel` reel-assembly core (src/pix2reel/assembly.py)
against its natural-language specification.

The Python module builds an ffmpeg argument vector from images, captions, an
optional audio file and a list of cut points, and runs it as a subprocess.
Every Python string built by f-string interpolation is modelled as a list of
`Piece`s: literal fragments interleaved with interpolated numbers (floats are
modelled as rationals; all float values appearing in the program and in the
claims are dyadic, so no rounding is lost).  Filesystem probes, onset
detection, downloads and the encoder subprocess are modelled as an explicit
environment record of pure functions.
-/

namespace Pix2Reel

/-- Piece of a textual value built by Python f-string interpolation: either a
literal string fragment or an interpolated numeric value. -/
inductive Piece where
  | lit : String → Piece
  | num : ℚ → Piece
deriving DecidableEq, Repr

/-- One element of the subprocess argument vector. -/
abbrev Arg := List Piece

/-- Python truthiness of an optional string (`if audio_file:` in assembly.py):
`None` and the empty string are falsy. -/
def pyTruthy : Option String → Bool
  | none => false
  | some s => s != ""

/-- Python exceptions that `run_reel_assembly` (assembly.py) can raise:
`ValueError` (validation), `FileNotFoundError` (missing image),
`RuntimeError` (download failure or encoder failure wrapping), and
`UnboundLocalError` (reading the local `temp_dir` before assignment). -/
inductive PyError where
  | valueError : String → PyError
  | fileNotFoundError : String → PyError
  | runtimeError : String → PyError
  | unboundLocalError : PyError
deriving DecidableEq, Repr

/-- The f-string appended for image `i` by the loop of
`_generate_filter_complex_string` (assembly.py lines 203-209): scale to fit
1080x1920, pad centered, force SAR 1:1 and `yuv420p`, then a drawtext step
whose text is `texts[i]` spliced in character for character (the source
performs no escaping; the caption is kept as its own literal piece), labelled
`img(i+1)`. -/
def imgFilterChunk (texts : List String) (i : ℕ) : List Piece :=
  [Piece.lit ("[" ++ toString (i + 1) ++
      ":v]scale=1080:1920:force_original_aspect_ratio=decrease," ++
      "pad=1080:1920:(ow-iw)/2:(oh-ih)/2:black,setsar=1,format=yuv420p," ++
      "drawtext=text=" ++ "\x27"),
   Piece.lit (texts.getD i ""),
   Piece.lit ("\x27" ++ ":fontsize=60:fontcolor=white:x=(w-text_w)/2:y=h-th-50:" ++
      "shadowcolor=black:shadowx=2:shadowy=2[img" ++ toString (i + 1) ++ "];")]

/-- Embedding of `_generate_filter_complex_string` (assembly.py lines
194-219).  The Python function accumulates one string with `+=` in two loops;
each `+=` here appends pieces.  Out-of-range indexing (`segment_durations[-1]`
on an empty list would raise in Python) is modelled with a default of 0; the
orchestrator always passes a list of length `images.length + 1`.  The leading
underscore of the Python name is dropped. -/
def generate_filter_complex_string (texts images : List String)
    (segment_durations : List ℚ) : List Piece :=
  let s : List Piece := [Piece.lit "[0:v]setsar=1[empty];"]
  let s := (List.range texts.length).foldl (fun acc i => acc ++ imgFilterChunk texts i) s
  let s := s ++ [Piece.lit "[empty]"]
  let s := (List.range images.length).foldl
    (fun acc i => acc ++ [Piece.lit ("[img" ++ toString (i + 1) ++ "]")]) s
  let s := s ++ [Piece.lit ("concat=n=" ++ toString (images.length + 1) ++ ":v=1:a=0[outv];")]
  s ++ [Piece.lit ("[" ++ toString (images.length + 1) ++ ":a]atrim=duration="),
        Piece.num (segment_durations.getLastD 0),
        Piece.lit ",volume=0.8[outa]"]

/-- Embedding of `_assemble_ffmpeg_commands` (assembly.py lines 149-192).
Indexing `segment_durations[i]` is modelled by `getD` with default 0 (the
orchestrator guarantees length `images.length + 1`).  The leading underscore
of the Python name is dropped. -/
def assemble_ffmpeg_commands (images texts : List String) (audio_file : Option String)
    (output_video : String) (segment_durations : List ℚ) : List Arg :=
  let command : List Arg :=
    [[Piece.lit "ffmpeg"], [Piece.lit "-f"], [Piece.lit "lavfi"], [Piece.lit "-i"],
     [Piece.lit "color=color=black:size=1080x1920:duration=",
      Piece.num (segment_durations.getD 0 0)]]
  let command := (List.range images.length).foldl
    (fun acc i => acc ++
      [[Piece.lit "-loop"], [Piece.lit "1"], [Piece.lit "-t"],
       [Piece.num (segment_durations.getD (i + 1) 0 - segment_durations.getD i 0)],
       [Piece.lit "-i"], [Piece.lit (images.getD i "")]]) command
  let command := command ++
    (if pyTruthy audio_file then
      [[Piece.lit "-i"], [Piece.lit (audio_file.getD "")]]
    else
      [[Piece.lit "-f"], [Piece.lit "lavfi"], [Piece.lit "-i"],
       [Piece.lit "anullsrc=channel_layout=stereo:sample_rate=44100"]])
  let filter_complex_str := generate_filter_complex_string texts images segment_durations
  command ++
    [[Piece.lit "-filter_complex"], filter_complex_str,
     [Piece.lit "-map"], [Piece.lit "[outv]"], [Piece.lit "-map"], [Piece.lit "[outa]"],
     [Piece.lit "-c:v"], [Piece.lit "libx264"], [Piece.lit "-c:a"], [Piece.lit "aac"],
     [Piece.lit "-shortest"], [Piece.lit "-y"], [Piece.lit output_video]]

/-- Environment of effectful collaborators, modelled as pure functions:
`exists_file` is `os.path.exists`; `onsets` is `get_segments_for_music`
(process_audios.py), which either returns the onset timestamps or raises
(error value = the exception's text); `encoder` is `subprocess.run` of the
assembled command (`.ok` = exit 0, `.error stderr` = `CalledProcessError`
carrying the text written to the error stream); `fetch`/`fetch_music` are the
per-URL outcomes of the HTTP downloads in `download_images`/`download_music`;
`temp_dir_exists` is the value of `os.path.exists(temp_dir)` at cleanup
time. -/
structure Env where
  exists_file : String → Bool
  onsets : Option String → Except String (List ℚ)
  encoder : List Arg → Except String Unit
  fetch : String → Except PyError Unit
  fetch_music : Option String → Except PyError Unit
  temp_dir_exists : Bool

/-- Embedding of `download_images` (assembly.py lines 16-44): for each URL in
order, fetch it (any failure is re-raised, aborting the whole loop) and store
it as `temp_dir/image_{i}.jpg`; returns the list of stored paths. -/
def download_images (fetch : String → Except PyError Unit) (temp_dir : String) :
    List String → ℕ → Except PyError (List String)
  | [], _ => .ok []
  | url :: rest, i =>
    match fetch url with
    | .error e => .error e
    | .ok _ =>
      match download_images fetch temp_dir rest (i + 1) with
      | .error e => .error e
      | .ok tail => .ok ((temp_dir ++ "/image_" ++ toString i ++ ".jpg") :: tail)

/-- Embedding of `download_music` (assembly.py lines 47-69): fetch the URL
(failures re-raised) and return the stored path `temp_dir/music.mp3`. -/
def download_music (fetch_music : Option String → Except PyError Unit)
    (temp_dir : String) (music_url : Option String) : Except PyError String :=
  match fetch_music music_url with
  | .error e => .error e
  | .ok _ => .ok (temp_dir ++ "/music.mp3")

/-- The uniform fallback schedule of assembly.py lines 124-125:
`[0.0] + [3.0 * (i+1) for i in range(n)]`, i.e. cut point i is `3.0 * i`. -/
def uniform_cut_points (n : ℕ) : List ℚ :=
  0 :: (List.range n).map (fun i : ℕ => (3 : ℚ) * ((i : ℚ) + 1))

/-- Embedding of assembly.py lines 113-116: when an audio path is truthy but
the file does not exist, the audio is silently replaced by `None`. -/
def resolve_audio_file (env : Env) (audio_file : Option String) : Option String :=
  if pyTruthy audio_file && !(env.exists_file (audio_file.getD "")) then none else audio_file

/-- Embedding of assembly.py lines 119-125 (the `try`/bare-`except` block):
explicit durations are used as given; otherwise `get_segments_for_music` is
called, and if it raises — for any reason — the uniform schedule is
substituted.  A successful return is used as-is, whatever its length. -/
def resolve_segment_durations (env : Env) (images : List String)
    (audio_file : Option String) (segment_durations : Option (List ℚ)) : List ℚ :=
  match segment_durations with
  | some ds => ds
  | none =>
    match env.onsets audio_file with
    | .ok ts => ts
    | .error _ => uniform_cut_points images.length

/-- The remote-fetch step of `run_reel_assembly` (assembly.py lines 95-104):
in `url` mode the images and the music are downloaded into `temp_dir` and the
argument lists are replaced by the local paths; in any other mode the
arguments pass through unchanged. -/
def download_step (env : Env) (mode : String) (temp_dir : String)
    (images : List String) (audio_file : Option String) :
    Except PyError (List String × Option String) :=
  if mode = "url" then
    match download_images env.fetch temp_dir images 0 with
    | .error e => .error e
    | .ok final_images =>
      match download_music env.fetch_music temp_dir audio_file with
      | .error e => .error e
      | .ok music_path => .ok (final_images, some music_path)
  else
    .ok (images, audio_file)

/-- Observable outcome of one `run_reel_assembly` invocation: the Python
result (`.ok` for a normal return, `.error` for a raised exception), the
command passed to `subprocess.run` when that call was reached, the resolved
(post-truncation) cut points when command assembly was reached, and whether
`shutil.rmtree(temp_dir)` was executed. -/
structure RunTrace where
  result : Except PyError Unit
  encoderCalled : Option (List Arg)
  cutPoints : Option (List ℚ)
  rmtreeCalled : Bool

/-- Embedding of `run_reel_assembly` (assembly.py lines 72-146).  The local
`temp_dir` is only assigned inside the `if mode == "url"` branch; the cleanup
guard `(mode == "url") & os.path.exists(temp_dir)` (lines 139 and 144) uses
the non-short-circuiting `&`, so in any other mode it evaluates
`os.path.exists(temp_dir)` on the unbound local and raises
`UnboundLocalError` — inside the `try` on the success path and inside the
`except CalledProcessError` handler on the failure path, in both cases
escaping the function (the handler's `raise RuntimeError` is never
reached). -/
def run_reel_assembly (env : Env) (images texts : List String) (audio_file : Option String)
    (output_video : String) (segment_durations : Option (List ℚ)) (mode : String) : RunTrace :=
  match download_step env mode "temp_images" images audio_file with
  | .error e => ⟨.error e, none, none, false⟩
  | .ok (images, audio_file) =>
    if images.length ≠ texts.length then
      ⟨.error (.valueError "Number of images must match number of texts"), none, none, false⟩
    else if ¬ images.all env.exists_file then
      ⟨.error (.fileNotFoundError "One or more image files do not exist"), none, none, false⟩
    else
      let audio_file := resolve_audio_file env audio_file
      let segment_durations := resolve_segment_durations env images audio_file segment_durations
      if segment_durations.length < images.length + 1 then
        ⟨.error (.valueError "Number of segment durations must be equal to number of images + 1"),
         none, none, false⟩
      else
        let segment_durations :=
          if segment_durations.length > images.length + 1 then
            segment_durations.take (images.length + 1)
          else segment_durations
        let command := assemble_ffmpeg_commands images texts audio_file output_video
          segment_durations
        match env.encoder command with
        | .ok _ =>
          if mode = "url" then
            ⟨.ok (), some command, some segment_durations, env.temp_dir_exists⟩
          else
            ⟨.error .unboundLocalError, some command, some segment_durations, false⟩
        | .error stderr =>
          if mode = "url" then
            ⟨.error (.runtimeError ("Error generating reel: " ++ stderr)), some command,
             some segment_durations, env.temp_dir_exists⟩
          else
            ⟨.error .unboundLocalError, some command, some segment_durations, false⟩

/-- Durations passed via `-t` flags: the interpolated number of each argument
that directly follows a `-t` argument in the command vector. -/
def tDurations : List Arg → List ℚ
  | [Piece.lit "-t"] :: [Piece.num q] :: rest => q :: tDurations rest
  | _ :: rest => tDurations rest
  | [] => []

/-- Input specifications of the command vector: the argument following each
`-i` flag, in declaration order (an option's argument is consumed, as ffmpeg
does). -/
def inputsOf : List Arg → List Arg
  | a :: b :: rest =>
    if a = [Piece.lit "-i"] then b :: inputsOf rest
    else inputsOf (b :: rest)
  | _ => []

/-- Specification-side description of input 0: the generated solid-black
1080x1920 color source whose duration is `cut_points[0]`. -/
def colorInputArg (sd : List ℚ) : Arg :=
  [Piece.lit "color=color=black:size=1080x1920:duration=", Piece.num (sd.getD 0 0)]

/-- Specification-side description of the argument block declaring image `i`:
looped, constrained to `cut_points[i+1] - cut_points[i]` seconds. -/
def imageInputBlock (images : List String) (sd : List ℚ) (i : ℕ) : List Arg :=
  [[Piece.lit "-loop"], [Piece.lit "1"], [Piece.lit "-t"],
   [Piece.num (sd.getD (i + 1) 0 - sd.getD i 0)],
   [Piece.lit "-i"], [Piece.lit (images.getD i "")]]

/-- Specification-side description of the audio input declaration: the given
audio file when truthy, otherwise a generated silent stereo source at a fixed
sample rate. -/
def audioInputArgs (audio_file : Option String) : List Arg :=
  if pyTruthy audio_file then [[Piece.lit "-i"], [Piece.lit (audio_file.getD "")]]
  else [[Piece.lit "-f"], [Piece.lit "lavfi"], [Piece.lit "-i"],
        [Piece.lit "anullsrc=channel_layout=stereo:sample_rate=44100"]]

/-- Specification-side description of the command tail: the filter graph,
the `[outv]`/`[outa]` mappings, the fixed codecs, `-shortest`, `-y` and the
output path. -/
def outputArgs (texts images : List String) (sd : List ℚ) (output_video : String) : List Arg :=
  [[Piece.lit "-filter_complex"], generate_filter_complex_string texts images sd,
   [Piece.lit "-map"], [Piece.lit "[outv]"], [Piece.lit "-map"], [Piece.lit "[outa]"],
   [Piece.lit "-c:v"], [Piece.lit "libx264"], [Piece.lit "-c:a"], [Piece.lit "aac"],
   [Piece.lit "-shortest"], [Piece.lit "-y"], [Piece.lit output_video]]

/-- Specification-side description of the concatenation part of the filter
graph: `empty`, then `img1 .. imgN`, concatenated with `n = N + 1` segments,
video-only, into sink label `outv`. -/
def concatSection (images : List String) : List Piece :=
  [Piece.lit "[empty]"]
  ++ (List.range images.length).map (fun i => Piece.lit ("[img" ++ toString (i + 1) ++ "]"))
  ++ [Piece.lit ("concat=n=" ++ toString (images.length + 1) ++ ":v=1:a=0[outv];")]

/-- Specification-side description of the audio part of the filter graph:
input `N + 1`'s audio stream, trimmed to `cut_points[-1]`, volume scaled by
0.8, into sink label `outa`. -/
def audioFilterSection (images : List String) (sd : List ℚ) : List Piece :=
  [Piece.lit ("[" ++ toString (images.length + 1) ++ ":a]atrim=duration="),
   Piece.num (sd.getLastD 0), Piece.lit ",volume=0.8[outa]"]

/-- Test environment in which every file exists, every download succeeds, the
encoder succeeds, and onset detection raises (as `librosa.load` does when the
audio argument is `None` or unreadable). -/
def envOk : Env where
  exists_file := fun _ => true
  onsets := fun _ => .error "librosa failed"
  encoder := fun _ => .ok ()
  fetch := fun _ => .ok ()
  fetch_music := fun _ => .ok ()
  temp_dir_exists := true

/-- Test environment in which onset detection succeeds but returns a single
timestamp — fewer than `image_count + 1`. -/
def envOnsetsShort : Env :=
  { envOk with onsets := fun _ => .ok [5] }

/-- Test environment in which onset detection succeeds with two timestamps,
the first of them nonzero. -/
def envOnsetsHalf : Env :=
  { envOk with onsets := fun _ => .ok [1/2, 2] }

/-- Test environment in which the encoder exits nonzero after writing
"invalid pixel format" to its error stream. -/
def envEncoderFail : Env :=
  { envOk with encoder := fun _ => .error "invalid pixel format" }

/-- Test environment in which the file "missing.mp3" does not exist but every
other file does. -/
def envNoAudioFile : Env :=
  { envOk with exists_file := fun p => p != "missing.mp3" }

theorem foldl_append_eq_append_flatMap {β : Type} (f : ℕ → List β) :
    ∀ (l : List ℕ) (init : List β),
      l.foldl (fun acc i => acc ++ f i) init = init ++ l.flatMap f := by
  intro l
  induction l with
  | nil => intro init; simp
  | cons a t ih => intro init; simp [List.foldl_cons, ih, List.flatMap_cons, List.append_assoc]

theorem foldl_append_singleton_eq_append_map {β : Type} (g : ℕ → β) :
    ∀ (l : List ℕ) (init : List β),
      l.foldl (fun acc i => acc ++ [g i]) init = init ++ l.map g := by
  intro l
  induction l with
  | nil => intro init; simp
  | cons a t ih => intro init; simp [List.foldl_cons, ih, List.append_assoc]

/-- The assembled command, written as one explicit concatenation: the five
head arguments (with the color spacer's duration read from the data), the
per-image blocks in image order, the audio input declaration, and the tail
(filter graph, mappings, codecs, `-shortest`, `-y`, output path). -/
theorem assemble_ffmpeg_commands_eq (images texts : List String) (audio_file : Option String)
    (output_video : String) (sd : List ℚ) :
    assemble_ffmpeg_commands images texts audio_file output_video sd =
      [[Piece.lit "ffmpeg"], [Piece.lit "-f"], [Piece.lit "lavfi"], [Piece.lit "-i"],
       colorInputArg sd]
      ++ (List.range images.length).flatMap (imageInputBlock images sd)
      ++ audioInputArgs audio_file
      ++ outputArgs texts images sd output_video := by
  simp only [assemble_ffmpeg_commands]
  rw [foldl_append_eq_append_flatMap]
  exact rfl

/-- The filter graph, written as one explicit concatenation: the `empty`
spacer node, the per-image caption chunks, the concat section and the audio
section. -/
theorem generate_filter_complex_string_eq (texts images : List String) (sd : List ℚ) :
    generate_filter_complex_string texts images sd =
      [Piece.lit "[0:v]setsar=1[empty];"]
      ++ (List.range texts.length).flatMap (imgFilterChunk texts)
      ++ concatSection images
      ++ audioFilterSection images sd := by
  simp only [generate_filter_complex_string]
  rw [foldl_append_singleton_eq_append_map, foldl_append_eq_append_flatMap]
  simp [concatSection, audioFilterSection, List.append_assoc]

theorem inputsOf_cons_cons_ne (a b : Arg) (rest : List Arg) (h : a ≠ [Piece.lit "-i"]) :
    inputsOf (a :: b :: rest) = inputsOf (b :: rest) := by
  simp [inputsOf, h]

theorem inputsOf_cons_i (b : Arg) (rest : List Arg) :
    inputsOf ([Piece.lit "-i"] :: b :: rest) = b :: inputsOf rest := by
  simp [inputsOf]

theorem inputsOf_imageInputBlock_append (images : List String) (sd : List ℚ) (i : ℕ)
    (rest : List Arg) :
    inputsOf (imageInputBlock images sd i ++ rest)
      = [Piece.lit (images.getD i "")] :: inputsOf rest := rfl

theorem inputsOf_imageBlocks (images : List String) (sd : List ℚ) :
    ∀ (l : List ℕ) (rest : List Arg),
      inputsOf (l.flatMap (imageInputBlock images sd) ++ rest)
        = l.map (fun i => [Piece.lit (images.getD i "")]) ++ inputsOf rest := by
  intro l
  induction l with
  | nil => intro rest; simp
  | cons a t ih =>
    intro rest
    rw [List.flatMap_cons, List.append_assoc, inputsOf_imageInputBlock_append, ih]
    simp

theorem generate_filter_complex_string_ne_i (texts images : List String) (sd : List ℚ) :
    generate_filter_complex_string texts images sd ≠ [Piece.lit "-i"] := by
  rw [generate_filter_complex_string_eq]
  intro h
  simp [List.cons_eq_cons] at h

theorem inputsOf_outputArgs (texts images : List String) (sd : List ℚ) (out : String) :
    inputsOf (outputArgs texts images sd out) = [] := by
  show inputsOf (generate_filter_complex_string texts images sd ::
    [[Piece.lit "-map"], [Piece.lit "[outv]"], [Piece.lit "-map"], [Piece.lit "[outa]"],
     [Piece.lit "-c:v"], [Piece.lit "libx264"], [Piece.lit "-c:a"], [Piece.lit "aac"],
     [Piece.lit "-shortest"], [Piece.lit "-y"], [Piece.lit out]]) = []
  rw [inputsOf_cons_cons_ne _ _ _ (generate_filter_complex_string_ne_i texts images sd)]
  rfl

theorem inputsOf_audio_output (texts images : List String) (audio_file : Option String)
    (sd : List ℚ) (out : String) :
    inputsOf (audioInputArgs audio_file ++ outputArgs texts images sd out)
      = [if pyTruthy audio_file then [Piece.lit (audio_file.getD "")]
         else [Piece.lit "anullsrc=channel_layout=stereo:sample_rate=44100"]] := by
  unfold audioInputArgs
  cases h : pyTruthy audio_file
  · simp only [h, Bool.false_eq_true, if_false]
    rw [show (([[Piece.lit "-f"], [Piece.lit "lavfi"], [Piece.lit "-i"],
        [Piece.lit "anullsrc=channel_layout=stereo:sample_rate=44100"]] : List Arg)
        ++ outputArgs texts images sd out)
      = [Piece.lit "-f"] :: [Piece.lit "lavfi"] :: [Piece.lit "-i"] ::
        [Piece.lit "anullsrc=channel_layout=stereo:sample_rate=44100"] ::
        outputArgs texts images sd out from rfl]
    rw [inputsOf_cons_cons_ne _ _ _ (by decide), inputsOf_cons_cons_ne _ _ _ (by decide),
      inputsOf_cons_i, inputsOf_outputArgs]
  · simp only [h, if_true]
    rw [show (([[Piece.lit "-i"], [Piece.lit (audio_file.getD "")]] : List Arg)
        ++ outputArgs texts images sd out)
      = [Piece.lit "-i"] :: [Piece.lit (audio_file.getD "")] ::
        outputArgs texts images sd out from rfl]
    rw [inputsOf_cons_i, inputsOf_outputArgs]

theorem range_map_getD {α β : Type} (f : α → β) (d : α) :
    ∀ (l : List α), (List.range l.length).map (fun i => f (l.getD i d)) = l.map f := by
  intro l
  induction l with
  | nil => simp
  | cons a t ih =>
    simp only [List.length_cons, List.range_succ_eq_map, List.map_cons, List.map_map]
    rw [show ((fun i => f ((a :: t).getD i d)) ∘ Nat.succ) = (fun i => f (t.getD i d)) from rfl]
    rw [ih]
    simp

/-- The declared inputs of the assembled command, in declaration order: the
color spacer, then every image in order, then exactly one audio input. -/
theorem inputsOf_assemble (images texts : List String) (audio_file : Option String)
    (out : String) (sd : List ℚ) :
    inputsOf (assemble_ffmpeg_commands images texts audio_file out sd)
      = colorInputArg sd :: (images.map (fun s => [Piece.lit s])
        ++ [(if pyTruthy audio_file then [Piece.lit (audio_file.getD "")]
             else [Piece.lit "anullsrc=channel_layout=stereo:sample_rate=44100"])]) := by
  rw [assemble_ffmpeg_commands_eq]
  show inputsOf ([Piece.lit "ffmpeg"] :: [Piece.lit "-f"] :: [Piece.lit "lavfi"] ::
    [Piece.lit "-i"] :: colorInputArg sd ::
    ((List.range images.length).flatMap (imageInputBlock images sd)
      ++ audioInputArgs audio_file ++ outputArgs texts images sd out)) = _
  rw [inputsOf_cons_cons_ne _ _ _ (by decide), inputsOf_cons_cons_ne _ _ _ (by decide),
    inputsOf_cons_cons_ne _ _ _ (by decide), List.append_assoc, inputsOf_cons_i,
    inputsOf_imageBlocks, inputsOf_audio_output,
    range_map_getD (fun s => [Piece.lit s]) "" images]


theorem uniform_cut_points_length (n : ℕ) : (uniform_cut_points n).length = n + 1 := by
  rw [uniform_cut_points, List.length_cons, List.length_map, List.length_range]

theorem download_step_skip (env : Env) (mode temp_dir : String) (images : List String)
    (audio_file : Option String) (hmode : mode ≠ "url") :
    download_step env mode temp_dir images audio_file = .ok (images, audio_file) := by
  simp [download_step, hmode]

theorem download_images_ok (fetch : String → Except PyError Unit)
    (temp_dir : String) (hf : ∀ u, fetch u = .ok ()) :
    ∀ (urls : List String) (i : ℕ),
      ∃ l, download_images fetch temp_dir urls i = .ok l ∧ l.length = urls.length := by
  intro urls
  induction urls with
  | nil => exact fun i => ⟨[], rfl, rfl⟩
  | cons u rest ih =>
    intro i
    obtain ⟨l, hl, hlen⟩ := ih (i + 1)
    refine ⟨(temp_dir ++ "/image_" ++ toString i ++ ".jpg") :: l, ?_, ?_⟩
    · simp [download_images, hf u, hl]
    · simp [hlen]

/-- In any non-`url` mode, once validation passes and enough cut points are
available, the run always assembles the command from the first
`image_count + 1` resolved cut points, hands it to the encoder, performs no
cleanup, and ends with `UnboundLocalError` (raised by the cleanup guard's
eager read of `temp_dir`) whatever the encoder's exit status. -/
theorem run_validated_dir (env : Env) (images texts : List String)
    (audio_file : Option String) (out mode : String) (sds : Option (List ℚ))
    (hmode : mode ≠ "url") (hlen : images.length = texts.length)
    (hex : images.all env.exists_file = true)
    (hge : images.length + 1 ≤
      (resolve_segment_durations env images (resolve_audio_file env audio_file) sds).length) :
    run_reel_assembly env images texts audio_file out sds mode =
      ⟨.error .unboundLocalError,
       some (assemble_ffmpeg_commands images texts (resolve_audio_file env audio_file) out
         ((resolve_segment_durations env images (resolve_audio_file env audio_file)
           sds).take (images.length + 1))),
       some ((resolve_segment_durations env images (resolve_audio_file env audio_file)
         sds).take (images.length + 1)),
       false⟩ := by
  simp only [run_reel_assembly,
    download_step_skip env mode "temp_images" images audio_file hmode]
  rw [if_neg (by omega : ¬ images.length ≠ texts.length)]
  rw [if_neg (by simp [hex] : ¬ ¬ images.all env.exists_file)]
  rw [if_neg (by omega : ¬ (resolve_segment_durations env images
    (resolve_audio_file env audio_file) sds).length < images.length + 1)]
  by_cases hgt : (resolve_segment_durations env images
      (resolve_audio_file env audio_file) sds).length > images.length + 1
  · rw [if_pos hgt]
    cases he : env.encoder (assemble_ffmpeg_commands images texts
        (resolve_audio_file env audio_file) out
        ((resolve_segment_durations env images (resolve_audio_file env audio_file)
          sds).take (images.length + 1))) <;>
      simp [he, hmode]
  · rw [if_neg hgt]
    rw [List.take_of_length_le (by omega)]
    cases he : env.encoder (assemble_ffmpeg_commands images texts
        (resolve_audio_file env audio_file) out
        (resolve_segment_durations env images (resolve_audio_file env audio_file) sds)) <;>
      simp [he, hmode]



/-- Any run (in a non-`url` mode) that passes the count and existence checks
but resolves fewer than `image_count + 1` cut points raises the
segment-duration `ValueError` before any command is built. -/
theorem run_too_few_dir (env : Env) (images texts : List String)
    (audio_file : Option String) (out mode : String) (sds : Option (List ℚ))
    (hmode : mode ≠ "url") (hlen : images.length = texts.length)
    (hex : images.all env.exists_file = true)
    (hlt : (resolve_segment_durations env images (resolve_audio_file env audio_file) sds).length
      < images.length + 1) :
    run_reel_assembly env images texts audio_file out sds mode =
      ⟨.error (.valueError "Number of segment durations must be equal to number of images + 1"),
       none, none, false⟩ := by
  simp only [run_reel_assembly,
    download_step_skip env mode "temp_images" images audio_file hmode]
  rw [if_neg (by omega : ¬ images.length ≠ texts.length)]
  rw [if_neg (by simp [hex] : ¬ ¬ images.all env.exists_file)]
  rw [if_pos hlt]

/-- Any run whose downloads succeed (trivially so outside `url` mode) with
mismatched image and caption counts stops at the count check: the
`ValueError` is raised, no command is constructed, the encoder is never
invoked, and no cleanup runs. -/
theorem run_mismatch (env : Env) (images texts : List String) (audio_file : Option String)
    (out mode : String) (sds : Option (List ℚ))
    (hne : images.length ≠ texts.length)
    (hf : ∀ u, env.fetch u = .ok ())
    (hm : ∀ a, env.fetch_music a = .ok ()) :
    run_reel_assembly env images texts audio_file out sds mode =
      ⟨.error (.valueError "Number of images must match number of texts"),
       none, none, false⟩ := by
  by_cases hmode : mode = "url"
  · obtain ⟨l, hl, hllen⟩ := download_images_ok env.fetch "temp_images" hf images 0
    simp only [run_reel_assembly, download_step, hmode, if_true, hl, download_music, hm]
    rw [if_pos (by omega : l.length ≠ texts.length)]
  · simp only [run_reel_assembly,
      download_step_skip env mode "temp_images" images audio_file hmode]
    rw [if_pos hne]

/-- A `url`-mode run that passes validation and reaches the encoder performs
the cleanup (calls `shutil.rmtree`) exactly when the temporary directory
still exists — on the success path and on the encoding-failure path
alike. -/
theorem run_url_rmtree (env : Env) (images texts : List String)
    (audio_file : Option String) (out : String) (ds : List ℚ)
    (hf : ∀ u, env.fetch u = .ok ()) (hm : ∀ a, env.fetch_music a = .ok ())
    (hlen : images.length = texts.length)
    (hex : ∀ f, env.exists_file f = true)
    (hds : images.length + 1 ≤ ds.length) :
    (run_reel_assembly env images texts audio_file out (some ds) "url").rmtreeCalled
      = env.temp_dir_exists := by
  obtain ⟨l, hl, hllen⟩ := download_images_ok env.fetch "temp_images" hf images 0
  simp only [run_reel_assembly, download_step, if_true, hl, download_music, hm]
  rw [if_neg (by omega : ¬ l.length ≠ texts.length)]
  rw [if_neg (by simp [List.all_eq_true, hex] : ¬ ¬ l.all env.exists_file)]
  rw [if_neg (by
    simp only [resolve_segment_durations]
    omega : ¬ (resolve_segment_durations env l
      (resolve_audio_file env (some ("temp_images" ++ "/music.mp3"))) (some ds)).length
      < l.length + 1)]
  by_cases hgt : (resolve_segment_durations env l
      (resolve_audio_file env (some ("temp_images" ++ "/music.mp3"))) (some ds)).length
      > l.length + 1
  · rw [if_pos hgt]
    cases env.encoder (assemble_ffmpeg_commands l texts
        (resolve_audio_file env (some ("temp_images" ++ "/music.mp3"))) out
        ((resolve_segment_durations env l
          (resolve_audio_file env (some ("temp_images" ++ "/music.mp3")))
          (some ds)).take (l.length + 1))) <;> rfl
  · rw [if_neg hgt]
    cases env.encoder (assemble_ffmpeg_commands l texts
        (resolve_audio_file env (some ("temp_images" ++ "/music.mp3"))) out
        (resolve_segment_durations env l
          (resolve_audio_file env (some ("temp_images" ++ "/music.mp3"))) (some ds))) <;> rfl



/-- C1: for every list of images, captions, optional audio file, output path
and cut-point list, the assembled encoder command declares input 0 as a
generated solid-black 1080x1920 color source whose duration is
`cut_points[0]` (read from the data), inputs 1..N as the images in order,
each looped and constrained to play `cut_points[i+1] - cut_points[i]`
seconds, then the filter graph, the `[outv]`/`[outa]` mappings, fixed codecs
libx264/aac, `-shortest` and the unconditional `-y` overwrite of the output
path; and for 2 images with cut points `[0, 1.5, 4.0]` the two image
durations in the command are 1.5 and 2.5. -/
theorem C1_command_input_order :
    (∀ (images texts : List String) (audio_file : Option String)
        (output_video : String) (sd : List ℚ),
      assemble_ffmpeg_commands images texts audio_file output_video sd =
        [[Piece.lit "ffmpeg"], [Piece.lit "-f"], [Piece.lit "lavfi"], [Piece.lit "-i"],
         colorInputArg sd]
        ++ (List.range images.length).flatMap (imageInputBlock images sd)
        ++ audioInputArgs audio_file
        ++ outputArgs texts images sd output_video)
    ∧ tDurations (assemble_ffmpeg_commands ["a.jpg", "b.jpg"] ["c1", "c2"]
        (some "m.mp3") "out.mp4" [0, 3/2, 4]) = [3/2, 5/2] := by
  constructor
  · exact assemble_ffmpeg_commands_eq
  · have h : tDurations (assemble_ffmpeg_commands ["a.jpg", "b.jpg"] ["c1", "c2"]
        (some "m.mp3") "out.mp4" [0, 3/2, 4]) = [(3 : ℚ)/2 - 0, 4 - 3/2] := rfl
    rw [h]
    norm_num

/-- C2: for every caption list, image list and cut-point list, the
filter-graph builder returns exactly the graph that labels input 0's video
stream `empty` with SAR 1:1, produces for each image i a node `img(i+1)`
that scales, pads, forces SAR 1:1 and `yuv420p`, and draws caption i spliced
in literally with no escaping, concatenates `empty, img1, …, imgN` with
`n = N + 1` segments video-only into `[outv]`, and trims the audio input to
duration `cut_points[-1]` with volume 0.8 into `[outa]`; the builder is a
pure function (it is a plain function of its arguments here), and each
caption occupies its own unmodified literal piece of the graph. -/
theorem C2_filter_graph_exact :
    (∀ (texts images : List String) (sd : List ℚ),
      generate_filter_complex_string texts images sd =
        [Piece.lit "[0:v]setsar=1[empty];"]
        ++ (List.range texts.length).flatMap (imgFilterChunk texts)
        ++ concatSection images
        ++ audioFilterSection images sd)
    ∧ (∀ (texts : List String) (i : ℕ),
        (imgFilterChunk texts i).getD 1 (Piece.lit "") = Piece.lit (texts.getD i "")) :=
  ⟨generate_filter_complex_string_eq, fun _ _ => rfl⟩

/-- C3 counterexample: with one image and an onset-derivation step that
succeeds but yields a single timestamp (too few to be usable), the code does
not fall back to the uniform schedule: no cut points are resolved and a
segment-duration ValueError propagates to the caller. -/
theorem C3_counterexample :
    (run_reel_assembly envOnsetsShort ["a.jpg"] ["t"] (some "m.mp3") "out.mp4" none
      "directory").cutPoints = none
    ∧ (none : Option (List ℚ)) ≠ some (uniform_cut_points 1)
    ∧ (run_reel_assembly envOnsetsShort ["a.jpg"] ["t"] (some "m.mp3") "out.mp4" none
      "directory").result
      = .error (.valueError "Number of segment durations must be equal to number of images + 1") :=
  ⟨rfl, fun h => Option.noConfusion h, rfl⟩

/-- C3 (amended): when no explicit durations are supplied and the
onset-derivation step raises (for any reason), the resolved cut points are
exactly the uniform schedule `[0, 3, …, 3N]` and the run is indistinguishable
from one whose onset step had returned that schedule — the triggering failure
is never propagated.  (The original claim also covered a step that succeeds
with too few timestamps; there the code raises a ValueError instead of
falling back, see the counterexample.) -/
theorem C3_uniform_fallback_on_onset_failure (env : Env) (images texts : List String)
    (audio_file : Option String) (out mode : String) (e : String)
    (hmode : mode ≠ "url") (hlen : images.length = texts.length)
    (hex : images.all env.exists_file = true)
    (hons : env.onsets (resolve_audio_file env audio_file) = .error e) :
    (run_reel_assembly env images texts audio_file out none mode).cutPoints
      = some (uniform_cut_points images.length)
    ∧ run_reel_assembly env images texts audio_file out none mode
      = run_reel_assembly
          { env with onsets := fun _ => .ok (uniform_cut_points images.length) }
          images texts audio_file out none mode := by
  have hres : resolve_segment_durations env images (resolve_audio_file env audio_file) none
      = uniform_cut_points images.length := by
    simp [resolve_segment_durations, hons]
  have hge : images.length + 1 ≤
      (resolve_segment_durations env images (resolve_audio_file env audio_file) none).length := by
    rw [hres, uniform_cut_points_length]
  have hres2 : resolve_segment_durations
        { env with onsets := fun _ => .ok (uniform_cut_points images.length) } images
        (resolve_audio_file
          { env with onsets := fun _ => .ok (uniform_cut_points images.length) } audio_file)
        none
      = uniform_cut_points images.length := by
    simp [resolve_segment_durations]
  have hge2 : images.length + 1 ≤
      (resolve_segment_durations
        { env with onsets := fun _ => .ok (uniform_cut_points images.length) } images
        (resolve_audio_file
          { env with onsets := fun _ => .ok (uniform_cut_points images.length) } audio_file)
        none).length := by
    rw [hres2, uniform_cut_points_length]
  constructor
  · rw [run_validated_dir env images texts audio_file out mode none hmode hlen hex hge]
    simp [hres, uniform_cut_points_length]
  · rw [run_validated_dir env images texts audio_file out mode none hmode hlen hex hge]
    rw [run_validated_dir
        { env with onsets := fun _ => .ok (uniform_cut_points images.length) }
        images texts audio_file out mode none hmode hlen hex hge2]
    rw [hres, hres2]
    rfl

/-- C4: with explicit durations supplied, a list of length at least N+1 has
its first N+1 entries used verbatim as the cut points — the extras are
silently dropped and the run proceeds to hand the assembled command to the
encoder, raising no "too many" error — while a list shorter than N+1 raises
the hard segment-duration ValueError before any command is built. -/
theorem C4_explicit_durations_truncate_or_error (env : Env) (images texts : List String)
    (audio_file : Option String) (out mode : String) (ds : List ℚ)
    (hmode : mode ≠ "url") (hlen : images.length = texts.length)
    (hex : images.all env.exists_file = true) :
    (images.length + 1 ≤ ds.length →
      (run_reel_assembly env images texts audio_file out (some ds) mode).cutPoints
        = some (ds.take (images.length + 1))
      ∧ (run_reel_assembly env images texts audio_file out (some ds) mode).encoderCalled
        = some (assemble_ffmpeg_commands images texts (resolve_audio_file env audio_file) out
            (ds.take (images.length + 1))))
    ∧ (ds.length < images.length + 1 →
      (run_reel_assembly env images texts audio_file out (some ds) mode).result
        = .error (.valueError "Number of segment durations must be equal to number of images + 1")
      ∧ (run_reel_assembly env images texts audio_file out (some ds) mode).encoderCalled
        = none) := by
  constructor
  · intro hge
    rw [run_validated_dir env images texts audio_file out mode (some ds) hmode hlen hex hge]
    exact ⟨rfl, rfl⟩
  · intro hlt
    rw [run_too_few_dir env images texts audio_file out mode (some ds) hmode hlen hex hlt]
    exact ⟨rfl, rfl⟩

/-- C5 counterexample: with one image and onset timestamps `[0.5, 2.0]`, the
resolved cut points are `[0.5, 2.0]` used verbatim — the sequence is not
prefixed with `0.0` and the first resolved cut point is 0.5, not 0. -/
theorem C5_counterexample :
    (run_reel_assembly envOnsetsHalf ["a.jpg"] ["t"] (some "m.mp3") "out.mp4" none
      "directory").cutPoints = some [1/2, 2]
    ∧ ¬ ((1 : ℚ)/2 = 0) := by
  refine ⟨rfl, by norm_num⟩

/-- C5 (amended): when no explicit durations are supplied and the onset step
returns at least N+1 timestamps, the resolved cut points are the first N+1
onset timestamps used verbatim: no `0.0` is prefixed, so the first resolved
cut point equals the first onset timestamp, which need not be zero (see the
counterexample). -/
theorem C5_onsets_used_verbatim (env : Env) (images texts : List String)
    (audio_file : Option String) (out mode : String) (ts : List ℚ)
    (hmode : mode ≠ "url") (hlen : images.length = texts.length)
    (hex : images.all env.exists_file = true)
    (hons : env.onsets (resolve_audio_file env audio_file) = .ok ts)
    (hts : images.length + 1 ≤ ts.length) :
    (run_reel_assembly env images texts audio_file out none mode).cutPoints
      = some (ts.take (images.length + 1)) := by
  have hres : resolve_segment_durations env images (resolve_audio_file env audio_file) none
      = ts := by
    simp [resolve_segment_durations, hons]
  rw [run_validated_dir env images texts audio_file out mode none hmode hlen hex
    (by rw [hres]; exact hts)]
  simp [hres]



/-- C6: whenever the image and caption lists have different lengths (and the
run reaches validation — outside `url` mode the download step is a no-op, in
`url` mode it is assumed to succeed), the orchestrator raises the count
ValueError; no command is constructed and the encoder subprocess is never
invoked. -/
theorem C6_count_mismatch_validation (env : Env) (images texts : List String)
    (audio_file : Option String) (out mode : String) (sds : Option (List ℚ))
    (hne : images.length ≠ texts.length)
    (hf : ∀ u, env.fetch u = .ok ())
    (hm : ∀ a, env.fetch_music a = .ok ()) :
    (run_reel_assembly env images texts audio_file out sds mode).result
      = .error (.valueError "Number of images must match number of texts")
    ∧ (run_reel_assembly env images texts audio_file out sds mode).encoderCalled = none := by
  rw [run_mismatch env images texts audio_file out mode sds hne hf hm]
  exact ⟨rfl, rfl⟩

/-- C7: when the given audio path is truthy but the file does not exist, the
orchestrator raises nothing for the audio: the command handed to the encoder
is assembled with no audio file, and its declared inputs end with the
generated silent stereo source (`anullsrc`, fixed 44100 sample rate) instead
of any file-based audio input. -/
theorem C7_missing_audio_soft_degrades (env : Env) (images texts : List String)
    (a : String) (out mode : String) (ds : List ℚ)
    (hmode : mode ≠ "url") (hlen : images.length = texts.length)
    (hex : images.all env.exists_file = true)
    (ha : pyTruthy (some a) = true)
    (hmiss : env.exists_file a = false)
    (hds : images.length + 1 ≤ ds.length) :
    (run_reel_assembly env images texts (some a) out (some ds) mode).encoderCalled
      = some (assemble_ffmpeg_commands images texts none out (ds.take (images.length + 1)))
    ∧ inputsOf (assemble_ffmpeg_commands images texts none out (ds.take (images.length + 1)))
      = colorInputArg (ds.take (images.length + 1))
        :: (images.map (fun s => [Piece.lit s])
          ++ [[Piece.lit "anullsrc=channel_layout=stereo:sample_rate=44100"]]) := by
  have haud : resolve_audio_file env (some a) = none := by
    simp [resolve_audio_file, ha, hmiss]
  constructor
  · rw [run_validated_dir env images texts (some a) out mode (some ds) hmode hlen hex hds]
    rw [haud]
    exact rfl
  · rw [inputsOf_assemble]
    exact rfl

/-- C8: at the failing input — the default "directory" mode with the encoder
exiting nonzero after writing "invalid pixel format" to its error stream —
the orchestrator raises `UnboundLocalError` (the cleanup guard
`(mode == "url") & os.path.exists(temp_dir)` eagerly reads the unbound
`temp_dir` local inside the `except` handler), so the diagnostic text is
lost instead of being surfaced; the same invocation in "url" mode does reach
the intended `raise RuntimeError` and preserves the stderr text verbatim. -/
theorem C8_stderr_lost_in_directory_mode :
    (run_reel_assembly envEncoderFail ["a.jpg"] ["t"] none "out.mp4" (some [0, 3])
      "directory").result = .error PyError.unboundLocalError
    ∧ (run_reel_assembly envEncoderFail ["a.jpg"] ["t"] none "out.mp4" (some [0, 3])
      "url").result
      = .error (.runtimeError ("Error generating reel: " ++ "invalid pixel format")) :=
  ⟨rfl, rfl⟩

/-- C9 counterexample: a `url`-mode invocation whose downloads succeed but
whose validation fails (one downloaded image against two captions) exits
with the count ValueError without ever calling `shutil.rmtree`, although the
temporary download directory exists — so the directory is not removed on
every exit path. -/
theorem C9_counterexample :
    (run_reel_assembly envOk ["http-a"] ["t", "u"] (some "http-m") "out.mp4" none
      "url").result = .error (.valueError "Number of images must match number of texts")
    ∧ (run_reel_assembly envOk ["http-a"] ["t", "u"] (some "http-m") "out.mp4" none
      "url").rmtreeCalled = false
    ∧ envOk.temp_dir_exists = true :=
  ⟨rfl, rfl, rfl⟩

/-- C9 (amended): in `url` mode the temporary download directory is removed
(when it still exists) on the exit paths that reach the encoder — the
success path and the encoding-failure path alike; on exits before the
encoder runs (validation failure, download failure) it is not removed (see
the counterexample). -/
theorem C9_cleanup_on_encoder_paths (env : Env) (images texts : List String)
    (audio_file : Option String) (out : String) (ds : List ℚ)
    (hf : ∀ u, env.fetch u = .ok ()) (hm : ∀ a, env.fetch_music a = .ok ())
    (hlen : images.length = texts.length)
    (hex : ∀ f, env.exists_file f = true)
    (hds : images.length + 1 ≤ ds.length)
    (hdir : env.temp_dir_exists = true) :
    (run_reel_assembly env images texts audio_file out (some ds) "url").rmtreeCalled
      = true := by
  rw [run_url_rmtree env images texts audio_file out ds hf hm hlen hex hds, hdir]

/-- C10: the assembled command declares exactly one audio input — the given
file when truthy, otherwise the generated silence — always as the last of
N+2 declared inputs, i.e. at encoder input index N+1; and with captions 1:1
with images every stream reference of the filter graph resolves to a
declared input: `[0:v]` to the spacer at index 0, each per-image chunk's
`[(i+1):v]` to image i at index i+1 < N+2, and the audio trim's `[(N+1):a]`
to the audio input at index N+1. -/
theorem C10_inputs_resolve (images texts : List String) (audio_file : Option String)
    (out : String) (sd : List ℚ) (h : texts.length = images.length) :
    inputsOf (assemble_ffmpeg_commands images texts audio_file out sd)
      = colorInputArg sd :: (images.map (fun s => [Piece.lit s])
        ++ [(if pyTruthy audio_file then [Piece.lit (audio_file.getD "")]
             else [Piece.lit "anullsrc=channel_layout=stereo:sample_rate=44100"])])
    ∧ (inputsOf (assemble_ffmpeg_commands images texts audio_file out sd)).length
      = images.length + 2
    ∧ Piece.lit ("[" ++ toString (images.length + 1) ++ ":a]atrim=duration=")
      ∈ generate_filter_complex_string texts images sd
    ∧ (∀ i < texts.length,
        Piece.lit ("[" ++ toString (i + 1) ++
          ":v]scale=1080:1920:force_original_aspect_ratio=decrease," ++
          "pad=1080:1920:(ow-iw)/2:(oh-ih)/2:black,setsar=1,format=yuv420p," ++
          "drawtext=text=" ++ "\x27")
          ∈ generate_filter_complex_string texts images sd
        ∧ i + 1 < images.length + 2) := by
  refine ⟨inputsOf_assemble images texts audio_file out sd, ?_, ?_, ?_⟩
  · rw [inputsOf_assemble]
    simp
  · rw [generate_filter_complex_string_eq]
    simp [audioFilterSection]
  · intro i hi
    constructor
    · rw [generate_filter_complex_string_eq]
      simp only [List.mem_append, List.mem_flatMap]
      left; left; right
      exact ⟨i, List.mem_range.mpr hi, by simp [imgFilterChunk]⟩
    · omega



/-- C3 witness: one image, no audio, onset step raising — the cut points are
the uniform schedule `[0, 3]` and the run equals the one with a successful
uniform onset step. -/
theorem C3_witness :
    (run_reel_assembly envOk ["a.jpg"] ["t"] none "o" none "directory").cutPoints
      = some (uniform_cut_points 1)
    ∧ run_reel_assembly envOk ["a.jpg"] ["t"] none "o" none "directory"
      = run_reel_assembly { envOk with onsets := fun _ => .ok (uniform_cut_points 1) }
          ["a.jpg"] ["t"] none "o" none "directory" := by
  have h := C3_uniform_fallback_on_onset_failure envOk ["a.jpg"] ["t"] none "o" "directory"
    "librosa failed" (by decide) rfl rfl rfl
  exact ⟨h.1, h.2⟩

/-- C4 witness: one image with explicit durations `[0, 1.5, 4]` (extras
dropped, command assembled from the first two) and `[0]` (hard error, no
command). -/
theorem C4_witness :
    (run_reel_assembly envOk ["a.jpg"] ["t"] none "o" (some [0, 3/2, 4])
        "directory").cutPoints = some (([0, 3/2, 4] : List ℚ).take 2)
    ∧ (run_reel_assembly envOk ["a.jpg"] ["t"] none "o" (some [0, 3/2, 4])
        "directory").encoderCalled
      = some (assemble_ffmpeg_commands ["a.jpg"] ["t"] (resolve_audio_file envOk none) "o"
          (([0, 3/2, 4] : List ℚ).take 2))
    ∧ (run_reel_assembly envOk ["a.jpg"] ["t"] none "o" (some [0]) "directory").result
      = .error (.valueError "Number of segment durations must be equal to number of images + 1")
    ∧ (run_reel_assembly envOk ["a.jpg"] ["t"] none "o" (some [0]) "directory").encoderCalled
      = none := by
  have h1 := C4_explicit_durations_truncate_or_error envOk ["a.jpg"] ["t"] none "o" "directory"
    [0, 3/2, 4] (by decide) rfl rfl
  have h2 := C4_explicit_durations_truncate_or_error envOk ["a.jpg"] ["t"] none "o" "directory"
    [0] (by decide) rfl rfl
  exact ⟨(h1.1 (by decide)).1, (h1.1 (by decide)).2, (h2.2 (by decide)).1, (h2.2 (by decide)).2⟩

/-- C5 witness: one image with onset timestamps `[0.5, 2.0]` — the resolved
cut points are the first two onset timestamps verbatim. -/
theorem C5_witness :
    (run_reel_assembly envOnsetsHalf ["a.jpg"] ["t"] (some "m.mp3") "o" none
      "directory").cutPoints = some (([1/2, 2] : List ℚ).take 2) :=
  C5_onsets_used_verbatim envOnsetsHalf ["a.jpg"] ["t"] (some "m.mp3") "o" "directory"
    [1/2, 2] (by decide) rfl rfl rfl (by decide)

/-- C6 witness: one image against two captions — count ValueError, encoder
never invoked. -/
theorem C6_witness :
    (run_reel_assembly envOk ["a.jpg"] ["t", "u"] none "o" none "directory").result
      = .error (.valueError "Number of images must match number of texts")
    ∧ (run_reel_assembly envOk ["a.jpg"] ["t", "u"] none "o" none "directory").encoderCalled
      = none :=
  C6_count_mismatch_validation envOk ["a.jpg"] ["t", "u"] none "o" "directory" none
    (by decide) (fun _ => rfl) (fun _ => rfl)

/-- C7 witness: audio path "missing.mp3" given but absent — the command is
assembled with no audio file and its inputs end with the generated
silence. -/
theorem C7_witness :
    (run_reel_assembly envNoAudioFile ["a.jpg"] ["t"] (some "missing.mp3") "o"
        (some [0, 3]) "directory").encoderCalled
      = some (assemble_ffmpeg_commands ["a.jpg"] ["t"] none "o" (([0, 3] : List ℚ).take 2))
    ∧ inputsOf (assemble_ffmpeg_commands ["a.jpg"] ["t"] none "o" (([0, 3] : List ℚ).take 2))
      = colorInputArg (([0, 3] : List ℚ).take 2)
        :: (["a.jpg"].map (fun s => [Piece.lit s])
          ++ [[Piece.lit "anullsrc=channel_layout=stereo:sample_rate=44100"]]) :=
  C7_missing_audio_soft_degrades envNoAudioFile ["a.jpg"] ["t"] "missing.mp3" "o"
    "directory" [0, 3] (by decide) rfl rfl rfl rfl (by decide)

/-- C9 witness: a fully successful `url`-mode run removes the temporary
directory. -/
theorem C9_witness :
    (run_reel_assembly envOk ["http-a"] ["t"] (some "http-m") "o" (some [0, 3])
      "url").rmtreeCalled = true :=
  C9_cleanup_on_encoder_paths envOk ["http-a"] ["t"] (some "http-m") "o" [0, 3]
    (fun _ => rfl) (fun _ => rfl) rfl (fun _ => rfl) (by decide) rfl

/-- C10 witness: one image, one caption, no audio — the declared inputs are
the spacer, the image and the silence, and the filter-graph references
resolve. -/
theorem C10_witness :
    inputsOf (assemble_ffmpeg_commands ["a.jpg"] ["t"] none "o" [0, 3])
      = colorInputArg [0, 3] :: (["a.jpg"].map (fun s => [Piece.lit s])
        ++ [(if pyTruthy none then [Piece.lit ((none : Option String).getD "")]
             else [Piece.lit "anullsrc=channel_layout=stereo:sample_rate=44100"])])
    ∧ (inputsOf (assemble_ffmpeg_commands ["a.jpg"] ["t"] none "o" [0, 3])).length = 1 + 2
    ∧ Piece.lit ("[" ++ toString (1 + 1) ++ ":a]atrim=duration=")
      ∈ generate_filter_complex_string ["t"] ["a.jpg"] [0, 3]
    ∧ (∀ i < (["t"] : List String).length,
        Piece.lit ("[" ++ toString (i + 1) ++
          ":v]scale=1080:1920:force_original_aspect_ratio=decrease," ++
          "pad=1080:1920:(ow-iw)/2:(oh-ih)/2:black,setsar=1,format=yuv420p," ++
          "drawtext=text=" ++ "\x27")
          ∈ generate_filter_complex_string ["t"] ["a.jpg"] [0, 3]
        ∧ i + 1 < 1 + 2) :=
  C10_inputs_resolve ["a.jpg"] ["t"] none "o" [0, 3] rfl


end Pix2Reel

